import Mathlib

/-!
Verification of the mcp-infra-manager core logic: the registry/profile
resolver, the profile selector, the prompt renderer and the two
client-config renderers, embedded shallowly from the Python sources
(src/api/client.py, src/scripts/generate-claude-config.py,
src/scripts/generate-context-prompt.py).
-/

namespace MCPInfra

/-- A registry entry, as loaded from the services document.  Fields the
Python code reads with `dict.get` and a default are `Option`s here. -/
structure ServiceInfo where
  name : String
  description : String
  port : Nat
  category : Option String
  loc : Option String
  requires_auth : Option Bool
  command : Option String
  env_vars : Option (List String)
deriving Repr, DecidableEq

/-- A profile from the access-profiles document: its ordered list of
allowed service references (service ids or the wildcard token). -/
structure Profile where
  services : List String
deriving Repr, DecidableEq

/-- The registry mapping: insertion-ordered association list, as a Python
dict with unique keys. -/
abbrev Registry := List (String × ServiceInfo)

/-- The formatted (resolved) service returned by
`MCPInfraClient._format_service`: all defaults applied. -/
structure ResolvedService where
  id : String
  name : String
  description : String
  url : String
  port : Nat
  category : String
  loc : String
  requires_auth : Bool
  env_vars : List String
deriving Repr, DecidableEq

/-- Embedding of `MCPInfraClient._format_service` from src/api/client.py. -/
def format_service (service_id : String) (service_info : ServiceInfo) : ResolvedService :=
  let location := service_info.loc.getD "local"
  let host := if location = "workhorse" then "10.0.0.2" else "localhost"
  ⟨service_id,
   service_info.name,
   service_info.description,
   "http://" ++ host ++ ":" ++ toString service_info.port,
   service_info.port,
   service_info.category.getD "other",
   location,
   service_info.requires_auth.getD false,
   service_info.env_vars.getD []⟩

/-- One step of the loop body of `get_services_for_profile`: the list of
resolved services contributed by a single allowed-service reference. -/
def expand_ref (registry : Registry) (service_id : String) : List ResolvedService :=
  if service_id = "*" then
    (registry.filter (fun p => !(p.2.requires_auth.getD false))).map
      (fun p => format_service p.1 p.2)
  else
    match registry.lookup service_id with
    | some svc_info => [format_service service_id svc_info]
    | none => []

/-- Embedding of `MCPInfraClient.get_services_for_profile` from src/api/client.py:
raises (models as `Except.error`) when the profile is unknown, otherwise
concatenates the contribution of each allowed-service reference in
declared order. -/
def get_services_for_profile (profiles : List (String × Profile)) (registry : Registry)
    (profile : String) : Except String (List ResolvedService) :=
  match profiles.lookup profile with
  | none => Except.error ("Profile not found: " ++ profile)
  | some profile_config =>
      Except.ok (profile_config.services.flatMap (expand_ref registry))

/-- The fixed category priority order used by the grouped prompt
renderer (`category_order` in src/api/client.py and
src/scripts/generate-context-prompt.py). -/
def category_order : List String :=
  ["core", "search", "ai-context", "project", "development", "other"]

/-- Python `str.title()` on a list of characters: a cased character is
upper-cased when it does not follow a cased character, lower-cased
otherwise. -/
def py_title_chars : Bool → List Char → List Char
  | _, [] => []
  | prevAlpha, c :: cs =>
      let c2 := if c.isAlpha then (if prevAlpha then c.toLower else c.toUpper) else c
      c2 :: py_title_chars c.isAlpha cs

/-- Python `str.title()`. -/
def py_title (s : String) : String :=
  ⟨py_title_chars false s.data⟩

/-- The category header line emitted by the grouped renderers: the
title-cased category with hyphens replaced by spaces, between the fixed
header marker and the word Services. -/
def category_header (category : String) : String :=
  "### " ++ py_title (category.replace "-" " ") ++ " Services\n\n"

/-- Embedding of `MCPInfraClient._format_service_prompt` from src/api/client.py. -/
def format_service_prompt (service : ResolvedService) : String :=
  let lines := ["**" ++ service.name ++ "** (`" ++ service.id ++ "`)",
    "- URL: " ++ service.url,
    "- Purpose: " ++ service.description]
  let lines := if service.requires_auth
    then lines ++ ["- Note: Requires authentication token"] else lines
  String.intercalate "\n" lines ++ "\n\n"

/-- The category-grouping loop of `generate_prompt_section`: builds the
`categories` dict (insertion-ordered keys, values appended in input
order). -/
def group_step (categories : List (String × List ResolvedService)) (svc : ResolvedService) :
    List (String × List ResolvedService) :=
  if categories.any (fun p => p.1 == svc.category) then
    categories.map (fun p => if p.1 = svc.category then (p.1, p.2 ++ [svc]) else p)
  else
    categories ++ [(svc.category, [svc])]

def group_by_category (services : List ResolvedService) :
    List (String × List ResolvedService) :=
  services.foldl group_step []

/-- The fixed empty-state sentence of the prompt renderer. -/
def no_services_sentence : String :=
  "\nNo MCP services are available for this task."

/-- The fixed closing sentence of the prompt renderer. -/
def closing_sentence : String :=
  "Only use the MCP services listed above. Do not attempt to access any other services.\n"

/-- The rendering part of `MCPInfraClient.generate_prompt_section`
(src/api/client.py lines 127-157), applied to the already-resolved
service list. -/
def render_prompt (services : List ResolvedService) (include_categories : Bool) : String :=
  if services.isEmpty then
    no_services_sentence
  else
    let prompt := "\nYou have access to the following MCP services:\n\n"
    let prompt := if include_categories then
        let categories := group_by_category services
        prompt ++ String.join (category_order.map (fun category =>
          match categories.lookup category with
          | some svcs => category_header category ++ String.join (svcs.map format_service_prompt)
          | none => ""))
      else
        prompt ++ String.join (services.map format_service_prompt)
    prompt ++ closing_sentence

/-- Embedding of `MCPInfraClient.generate_prompt_section`: resolve, then render. -/
def generate_prompt_section (profiles : List (String × Profile)) (registry : Registry)
    (profile : String) (include_categories : Bool) : Except String String :=
  (get_services_for_profile profiles registry profile).map
    (fun services => render_prompt services include_categories)

/-- Python substring containment (`needle in haystack` on strings),
character-list level: the needle is a prefix of some suffix. -/
def char_list_contains (needle : List Char) : List Char → Bool
  | [] => needle.isEmpty
  | c :: rest => needle.isPrefixOf (c :: rest) || char_list_contains needle rest

/-- Python `needle in haystack` for strings. -/
def str_in (needle haystack : String) : Bool :=
  char_list_contains needle.data haystack.data

/-- The free-form context mapping passed to `determine_profile`,
restricted to string values. -/
abbrev Context := List (String × String)

/-- Python stringification of a string-valued dict: braces around
comma-separated quoted key/value pairs, as repr renders them. -/
def py_str_dict (ctx : Context) : String :=
  "\x7b" ++ String.intercalate ", "
    (ctx.map (fun p => "\x27" ++ p.1 ++ "\x27: \x27" ++ p.2 ++ "\x27")) ++ "\x7d"

/-- A selection-rule condition: each key of the condition mapping that
may be present in the document. -/
structure Condition where
  project_path_contains : Option String
  task_contains : Option (List String)
  context_contains : Option (List String)
  default : Option Bool
deriving Repr, DecidableEq

/-- A selection rule: a condition and a target profile name. -/
structure Rule where
  condition : Condition
  profile : String
deriving Repr, DecidableEq

/-- The `project_path_contains` check of `determine_profile`: the key
is present and the configured substring occurs in the project-path
entry of the context (the empty string when the key is absent). -/
def check_path (project_context : Context) (condition : Condition) : Bool :=
  match condition.project_path_contains with
  | some sub => str_in sub ((project_context.lookup "project_path").getD "")
  | none => false

/-- The `task_contains` check of `determine_profile`: the key is
present and any configured keyword occurs in the lower-cased task. -/
def check_task (task : String) (condition : Condition) : Bool :=
  match condition.task_contains with
  | some keywords => keywords.any (fun keyword => str_in keyword task.toLower)
  | none => false

/-- The `context_contains` check of `determine_profile`: the key is
present and any configured keyword occurs in the lower-cased
stringification of the context mapping. -/
def check_context (project_context : Context) (condition : Condition) : Bool :=
  match condition.context_contains with
  | some keywords => keywords.any (fun keyword => str_in keyword (py_str_dict project_context).toLower)
  | none => false

/-- The body of the `for rule in ...` loop of
`MCPInfraClient.determine_profile`: each present condition key is
checked in source order, returning the rule target (`some`) at the
first matching check, `none` when no check fires. -/
def eval_rule (task : String) (project_context : Context) (rule : Rule) : Option String :=
  if check_path project_context rule.condition then
    some rule.profile
  else if check_task task rule.condition then
    some rule.profile
  else if check_context project_context rule.condition then
    some rule.profile
  else if rule.condition.default.getD false then
    some rule.profile
  else
    none

/-- `MCPInfraClient.determine_profile` from src/api/client.py: first
rule whose evaluation fires wins; the literal `"default"` when the loop
falls through. -/
def determine_profile (selection_rules : List Rule) (task : String)
    (project_context : Context) : String :=
  match selection_rules with
  | [] => "default"
  | rule :: rest =>
      match eval_rule task project_context rule with
      | some p => p
      | none => determine_profile rest task project_context

/-- A launch-spec entry of the client configuration document
(`mcpServers` value). -/
structure ConfigEntry where
  command : String
  args : List String
  env : Option (List (String × String))
deriving Repr, DecidableEq

/-- The `mcpServers` mapping: insertion-ordered association list with
Python-dict assignment semantics. -/
abbrev MCPConfig := List (String × ConfigEntry)

/-- Python dict assignment `m[k] = v`: replaces in place when the key
exists, appends otherwise. -/
def dict_set (m : MCPConfig) (k : String) (v : ConfigEntry) : MCPConfig :=
  if m.any (fun p => p.1 == k) then
    m.map (fun p => if p.1 = k then (p.1, v) else p)
  else
    m ++ [(k, v)]

/-- Helper for Python `str.split()`: walks the characters keeping the
(reversed) current token, emitting a token at each whitespace run
boundary, discarding empty tokens. -/
def split_ws_go (cur : List Char) : List Char → List String
  | [] => if cur.isEmpty then [] else [⟨cur.reverse⟩]
  | c :: rest =>
      if c.isWhitespace then
        if cur.isEmpty then split_ws_go [] rest
        else String.mk cur.reverse :: split_ws_go [] rest
      else split_ws_go (c :: cur) rest

/-- Python `str.split()` with no separator: split on whitespace runs,
discarding empty tokens. -/
def py_split_ws (s : String) : List String :=
  split_ws_go [] s.data

/-- The env placeholder mapping: each variable name maps to its literal
dollar-brace interpolation marker. -/
def env_placeholder_map (vars : List String) : List (String × String) :=
  vars.map (fun v => (v, "$\x7b" ++ v ++ "\x7d"))

/-- The per-service loop body of
`MCPInfraClient.generate_claude_desktop_config` (src/api/client.py
lines 250-271): emit the launch spec, then attach env placeholders; a
Python `KeyError` on a dict index of a missing key is modelled as
`Except.error`. -/
def add_resolved_service (registry : Registry) (config : MCPConfig)
    (svc : ResolvedService) : Except String MCPConfig := do
  let config1 ←
    if svc.loc = "workhorse" then
      pure (dict_set config svc.id
        ⟨"node", ["/usr/local/bin/mcp-proxy", svc.url], none⟩)
    else
      match registry.lookup svc.id with
      | none => Except.error ("KeyError: " ++ svc.id)
      | some service_info =>
          match py_split_ws (service_info.command.getD "") with
          | [] => pure config
          | c :: rest => pure (dict_set config svc.id ⟨c, rest, none⟩)
  if svc.env_vars.isEmpty then
    pure config1
  else
    match config1.lookup svc.id with
    | none => Except.error ("KeyError: " ++ svc.id)
    | some entry =>
        pure (dict_set config1 svc.id ⟨entry.command, entry.args, some (env_placeholder_map svc.env_vars)⟩)

/-- The rendering part of `generate_claude_desktop_config`: fold the
per-service step over the resolved service list, starting from the
empty `mcpServers` mapping. -/
def render_client_config (services : List ResolvedService) (registry : Registry) :
    Except String MCPConfig :=
  services.foldlM (add_resolved_service registry) []

/-- Embedding of `MCPInfraClient.generate_claude_desktop_config`: resolve,
then render. -/
def generate_claude_desktop_config (profiles : List (String × Profile))
    (registry : Registry) (profile : String) : Except String MCPConfig := do
  let services ← get_services_for_profile profiles registry profile
  render_client_config services registry

/-- Embedding of `add_service_to_config` from src/scripts/generate-claude-config.py:
like the client-library step but keyed on the raw registry entry; note
the wildcard caller passes every registry entry, and the env attachment
fires whenever the `env_vars` key is present (even when empty). -/
def add_service_to_config (config : MCPConfig) (service_id : String)
    (service_info : ServiceInfo) : Except String MCPConfig := do
  let config1 ←
    if service_info.loc = some "workhorse" then
      pure (dict_set config service_id
        ⟨"node", ["/usr/local/bin/mcp-proxy", "http://10.0.0.2:" ++ toString service_info.port], none⟩)
    else
      match py_split_ws (service_info.command.getD "") with
      | [] => pure config
      | c :: rest => pure (dict_set config service_id ⟨c, rest, none⟩)
  match service_info.env_vars with
  | none => pure config1
  | some vars =>
      match config1.lookup service_id with
      | none => Except.error ("KeyError: " ++ service_id)
      | some entry =>
          pure (dict_set config1 service_id ⟨entry.command, entry.args, some (env_placeholder_map vars)⟩)

/-- Embedding of `main` of src/scripts/generate-claude-config.py (the configuration
build, file I/O excluded): for the wildcard token, EVERY registry entry
is added, with no requires-auth filtering. -/
def script_generate_config (registry : Registry) (profiles : List (String × Profile))
    (profile_name : String) : Except String MCPConfig :=
  match profiles.lookup profile_name with
  | none => Except.error ("Profile not found: " ++ profile_name)
  | some profile =>
      profile.services.foldlM (fun config service_id =>
        if service_id = "*" then
          registry.foldlM (fun cfg p => add_service_to_config cfg p.1 p.2) config
        else
          match registry.lookup service_id with
          | some info => add_service_to_config config service_id info
          | none => pure config) []

/-- One step of the service-collection loop of
src/scripts/generate-context-prompt.py: the pairs contributed by a
single allowed-service reference. -/
def script_expand_ref (registry : Registry) (service_id : String) :
    List (String × ServiceInfo) :=
  if service_id = "*" then
    registry.filter (fun p => !(p.2.requires_auth.getD false))
  else
    match registry.lookup service_id with
    | some info => [(service_id, info)]
    | none => []

/-- The service-collection loop of src/scripts/generate-context-prompt.py
(lines 37-46): the wildcard contributes the registry entries whose
requires-auth flag is false, in registry order. -/
def script_collect_services (registry : Registry) (allowed_services : List String) :
    List (String × ServiceInfo) :=
  allowed_services.flatMap (script_expand_ref registry)

/-! ## Spec-side definitions

These follow the words of the specification (not the source), for
comparison with the source-derived definitions above. -/

/-- Spec-side rule matching (for the refinement claim about the
selector): a rule fires when ANY of its present conditions matches. -/
def rule_matches_spec (task : String) (project_context : Context) (rule : Rule) : Bool :=
  check_path project_context rule.condition
    || check_task task rule.condition
    || check_context project_context rule.condition
    || rule.condition.default.getD false

/-- Spec-side selector: the target profile of the FIRST rule (declared
order) that matches, the literal `"default"` when none does. -/
def select_profile_spec (selection_rules : List Rule) (task : String)
    (project_context : Context) : String :=
  ((selection_rules.find? (rule_matches_spec task project_context)).map Rule.profile).getD
    "default"

/-! ## Fixtures

The concrete registry and profiles of the §8 scenarios of the spec,
plus small variants used as concrete inputs. -/

/-- Registry entry `a` of the concrete spec scenario. -/
def infoA : ServiceInfo := ⟨"A", "d", 1000, none, some "local", some false, some "run-a", none⟩

/-- Registry entry `b` of the concrete spec scenario. -/
def infoB : ServiceInfo := ⟨"B", "d2", 2000, none, some "workhorse", some true, none, none⟩

/-- The two-service registry of the concrete spec scenario. -/
def regAB : Registry := [("a", infoA), ("b", infoB)]

/-- A local registry entry whose launch command string is empty and
which lists a required environment variable. -/
def infoX : ServiceInfo := ⟨"X", "dx", 3000, none, none, none, some "", some ["K"]⟩

/-- A local registry entry whose launch command string is empty and
which lists no environment variables. -/
def infoY : ServiceInfo := ⟨"Y", "dy", 4000, none, none, none, some "", none⟩

/-! ## Helper lemmas -/

/-- The empty string is a Python-substring of every string. -/
lemma str_in_empty (s : String) : str_in "" s = true := by
  unfold str_in
  show char_list_contains [] s.data = true
  cases s.data with
  | nil => rfl
  | cons c rest => simp [char_list_contains, List.isPrefixOf]

/-- Joining a cons is appending the head to the joined tail. -/
lemma string_join_cons (a : String) (l : List String) :
    String.join (a :: l) = a ++ String.join l := by
  apply String.ext
  simp [String.join_eq, String.data_append]

/-- Association-list lookup at a cons cell, with a propositional
condition. -/
lemma lookup_cons_ite {β : Type} (c k : String) (v : β) (l : List (String × β)) :
    List.lookup c ((k, v) :: l) = if c = k then some v else List.lookup c l := by
  by_cases h : c = k
  · simp [List.lookup, h]
  · rw [List.lookup, beq_false_of_ne h, if_neg h]

/-- Looking up after a value-update map: only the updated key changes. -/
lemma lookup_map_update (acc : List (String × List ResolvedService)) (cat c : String)
    (svc : ResolvedService) :
    (acc.map (fun p => if p.1 = cat then (p.1, p.2 ++ [svc]) else p)).lookup c =
      if c = cat then (acc.lookup c).map (fun l => l ++ [svc]) else acc.lookup c := by
  induction acc with
  | nil => by_cases h : c = cat <;> simp [h]
  | cons p rest ih =>
      obtain ⟨k, v⟩ := p
      simp only [List.map_cons]
      by_cases hk : k = cat
      · subst hk
        by_cases hc : c = k
        · subst hc
          simp [lookup_cons_ite, ih]
        · simp [lookup_cons_ite, hc, ih]
      · by_cases hc : c = k
        · subst hc
          have hcc : ¬ c = cat := hk
          simp [lookup_cons_ite, hcc, hk]
        · simp [lookup_cons_ite, hc, hk, ih]

/-- Looking up in a one-element extension. -/
lemma lookup_append_single (acc : List (String × List ResolvedService)) (k c : String)
    (v : List ResolvedService) :
    (acc ++ [(k, v)]).lookup c =
      match acc.lookup c with
      | some l => some l
      | none => if c = k then some v else none := by
  induction acc with
  | nil => simp [lookup_cons_ite]
  | cons p rest ih =>
      obtain ⟨k1, v1⟩ := p
      by_cases h : c = k1 <;> simp [lookup_cons_ite, h, ih, List.cons_append]

/-- A key occurs among the firsts iff its lookup succeeds. -/
lemma any_key_eq_lookup_isSome (acc : List (String × List ResolvedService)) (c : String) :
    (acc.any (fun p => p.1 == c)) = (acc.lookup c).isSome := by
  induction acc with
  | nil => rfl
  | cons p rest ih =>
      obtain ⟨k, v⟩ := p
      by_cases hc : k = c
      · subst hc; simp [lookup_cons_ite]
      · have h2 : ¬ (c = k) := fun h => hc h.symm
        simp [lookup_cons_ite, hc, h2, ih]

/-- Effect of a single grouping step on a lookup. -/
lemma lookup_group_step (acc : List (String × List ResolvedService)) (svc : ResolvedService)
    (c : String) :
    (group_step acc svc).lookup c =
      if svc.category = c then
        match acc.lookup c with
        | some l => some (l ++ [svc])
        | none => some [svc]
      else acc.lookup c := by
  unfold group_step
  by_cases hcat : svc.category = c
  · subst hcat
    cases hl : acc.lookup svc.category with
    | some l =>
        have hany : acc.any (fun p => p.1 == svc.category) = true := by
          rw [any_key_eq_lookup_isSome, hl]; rfl
        simp [hany, lookup_map_update, hl]
    | none =>
        have hany : acc.any (fun p => p.1 == svc.category) = false := by
          rw [any_key_eq_lookup_isSome, hl]; rfl
        simp [hany, lookup_append_single, hl]
  · by_cases hany : acc.any (fun p => p.1 == svc.category) = true
    · have h2 : ¬ (c = svc.category) := fun h => hcat h.symm
      simp [hany, lookup_map_update, h2, hcat]
    · have h2 : ¬ (c = svc.category) := fun h => hcat h.symm
      simp only [Bool.not_eq_true] at hany
      cases hl : acc.lookup c <;>
        simp [hany, lookup_append_single, hl, h2, hcat]

/-- Grouping, then looking up a category, equals filtering by that
category (with `none` exactly for unpopulated categories). -/
lemma lookup_foldl_group (c : String) (services : List ResolvedService) :
    ∀ acc : List (String × List ResolvedService),
    (services.foldl group_step acc).lookup c =
      match acc.lookup c with
      | some l => some (l ++ services.filter (fun s => s.category == c))
      | none =>
          if services.any (fun s => s.category == c) then
            some (services.filter (fun s => s.category == c))
          else none := by
  induction services with
  | nil =>
      intro acc
      cases h : acc.lookup c <;> simp [h]
  | cons svc rest ih =>
      intro acc
      rw [List.foldl_cons, ih (group_step acc svc), lookup_group_step]
      by_cases hcat : svc.category = c
      · subst hcat
        cases hl : acc.lookup svc.category with
        | some l => simp [hl, List.filter_cons, List.any_cons]
        | none => simp [hl, List.filter_cons, List.any_cons]
      · cases hl : acc.lookup c with
        | some l => simp [hl, hcat, List.filter_cons, List.any_cons]
        | none => simp [hl, hcat, List.filter_cons, List.any_cons]

/-- `group_by_category` then lookup is filtering. -/
lemma lookup_group_by_category (services : List ResolvedService) (c : String) :
    (group_by_category services).lookup c =
      if services.any (fun s => s.category == c) then
        some (services.filter (fun s => s.category == c))
      else none := by
  unfold group_by_category
  rw [lookup_foldl_group c services []]
  rfl

/-- The empty string is a left identity for string append. -/
lemma empty_string_append (s : String) : "" ++ s = s := by
  apply String.ext
  simp [String.data_append]

/-- Joining either-section-or-empty chunks over a list equals joining
the sections over the filtered list. -/
lemma join_ite_eq_join_filter (l : List String) (p : String → Bool) (f : String → String) :
    String.join (l.map (fun c => if p c then f c else "")) =
      String.join ((l.filter p).map f) := by
  induction l with
  | nil => rfl
  | cons a rest ih =>
      cases h : p a <;>
        simp [string_join_cons, List.filter_cons, h, ih, empty_string_append]

/-- The resolved projection of registry entry `a`. -/
def svcA : ResolvedService := format_service "a" infoA

/-! ## Claim theorems -/

/-- C1, counterexample: in the client-config path of
src/scripts/generate-claude-config.py, the wildcard DOES contribute a
service with `requires_auth = true`: with a one-entry registry holding
only the auth-required workhorse service `b` and a profile consisting
of the wildcard alone, the generated configuration contains an entry
for `b`. -/
theorem script_config_wildcard_includes_auth_service :
    script_generate_config [("b", infoB)] [("p", Profile.mk ["*"])] "p" =
      Except.ok [("b", ⟨"node", ["/usr/local/bin/mcp-proxy", "http://10.0.0.2:2000"], none⟩)] :=
  rfl

/-- C1 (amended): in `get_services_for_profile` (the resolver behind
both the prompt path and the client-library config path) and in the
collection loop of the context-prompt script, a wildcard contributes, at its
position, exactly the registry entries with `requires_auth = false`, in
registry iteration order; the standalone config-generation script is
not so filtered. -/
theorem wildcard_expands_to_nonauth_in_order (profiles : List (String × Profile))
    (registry : Registry) (name : String) (cfg : Profile) (l1 l2 : List String)
    (h1 : profiles.lookup name = some cfg) (h2 : cfg.services = l1 ++ "*" :: l2) :
    get_services_for_profile profiles registry name =
      Except.ok (l1.flatMap (expand_ref registry)
        ++ (registry.filter (fun p => !(p.2.requires_auth.getD false))).map
            (fun p => format_service p.1 p.2)
        ++ l2.flatMap (expand_ref registry))
    ∧ script_collect_services registry (l1 ++ "*" :: l2) =
        l1.flatMap (script_expand_ref registry)
        ++ registry.filter (fun p => !(p.2.requires_auth.getD false))
        ++ l2.flatMap (script_expand_ref registry) := by
  constructor
  · unfold get_services_for_profile
    rw [h1]
    simp only [h2, List.flatMap_append, List.flatMap_cons, List.flatMap_nil]
    simp [expand_ref]
  · unfold script_collect_services
    simp only [List.flatMap_append, List.flatMap_cons, List.flatMap_nil]
    simp [script_expand_ref]

/-- Witness for the C1 theorem at the concrete spec scenario:
profile `p1 = ["*"]` over the two-service registry resolves to exactly
the non-auth service `a`. -/
theorem wildcard_expands_to_nonauth_in_order_witness :
    ([("p1", Profile.mk ["*"])].lookup "p1" = some (Profile.mk ["*"])
      ∧ (Profile.mk ["*"]).services = [] ++ "*" :: [])
    ∧ (get_services_for_profile [("p1", Profile.mk ["*"])] regAB "p1" =
        Except.ok (([] : List String).flatMap (expand_ref regAB)
          ++ (regAB.filter (fun p => !(p.2.requires_auth.getD false))).map
              (fun p => format_service p.1 p.2)
          ++ ([] : List String).flatMap (expand_ref regAB))
      ∧ script_collect_services regAB ([] ++ "*" :: []) =
          ([] : List String).flatMap (script_expand_ref regAB)
          ++ regAB.filter (fun p => !(p.2.requires_auth.getD false))
          ++ ([] : List String).flatMap (script_expand_ref regAB)) :=
  ⟨⟨rfl, rfl⟩,
   wildcard_expands_to_nonauth_in_order [("p1", Profile.mk ["*"])] regAB "p1"
     (Profile.mk ["*"]) [] [] rfl rfl⟩

/-- C2, counterexample: the client-config renderer is not total: a
local service whose launch command string is empty and which lists a
required environment variable makes it fail (the Python code raises
`KeyError` when attaching `env` to the never-emitted entry). -/
theorem render_client_config_keyerror_on_empty_command_with_env :
    render_client_config [format_service "x" infoX] [("x", infoX)] =
      Except.error ("KeyError: " ++ "x") := by
  rfl

/-- C2 (amended): for a local service whose registry launch command
splits to no tokens, no entry is emitted — the configuration is
returned unchanged — when the service lists no environment variables;
when it lists at least one, the renderer fails with a key-lookup error
instead of emitting an entry. -/
theorem render_client_config_empty_command (registry : Registry) (svc : ResolvedService)
    (info : ServiceInfo) (h1 : svc.loc ≠ "workhorse")
    (h2 : registry.lookup svc.id = some info)
    (h3 : py_split_ws (info.command.getD "") = []) :
    render_client_config [svc] registry =
      if svc.env_vars.isEmpty then Except.ok []
      else Except.error ("KeyError: " ++ svc.id) := by
  unfold render_client_config
  rw [List.foldlM_cons]
  unfold add_resolved_service
  rw [if_neg h1, h2]
  simp only [h3]
  cases henv : svc.env_vars.isEmpty <;>
    simp [henv, List.lookup, pure, Except.pure, Bind.bind, Except.bind]

/-- Witness for the C2 theorem: the empty-command local service `y`
with no environment variables yields the unchanged (empty)
configuration. -/
theorem render_client_config_empty_command_witness :
    ((format_service "y" infoY).loc ≠ "workhorse"
      ∧ [("y", infoY)].lookup (format_service "y" infoY).id = some infoY
      ∧ py_split_ws (infoY.command.getD "") = [])
    ∧ render_client_config [format_service "y" infoY] [("y", infoY)] =
        (if (format_service "y" infoY).env_vars.isEmpty then Except.ok []
         else Except.error ("KeyError: " ++ (format_service "y" infoY).id)) :=
  ⟨⟨by decide, rfl, rfl⟩,
   render_client_config_empty_command [("y", infoY)] (format_service "y" infoY) infoY
     (by decide) rfl rfl⟩

/-- C3: resolution fails with the profile-not-found error exactly when
the profile name is absent from the profile set; a present profile is
never answered with that error (no silent defaulting). -/
theorem resolve_error_iff_profile_absent (profiles : List (String × Profile))
    (registry : Registry) (profile : String) :
    get_services_for_profile profiles registry profile =
        Except.error ("Profile not found: " ++ profile)
      ↔ profiles.lookup profile = none := by
  unfold get_services_for_profile
  cases h : profiles.lookup profile <;> simp [h]

/-- The early-return evaluation of a rule fires exactly when any of its
present conditions matches. -/
lemma eval_rule_eq_ite (task : String) (project_context : Context) (rule : Rule) :
    eval_rule task project_context rule =
      if rule_matches_spec task project_context rule then some rule.profile else none := by
  unfold eval_rule rule_matches_spec
  cases h1 : check_path project_context rule.condition <;>
    cases h2 : check_task task rule.condition <;>
      cases h3 : check_context project_context rule.condition <;>
        cases h4 : rule.condition.default.getD false <;> simp [h1, h2, h3, h4]

/-- C4: `determine_profile` returns the target profile of the first
rule, in declared order, for which any of its present conditions
matches (path substring, task keyword, stringified-context keyword, or
default flag), and the literal `"default"` when no rule matches. -/
theorem determine_profile_eq_first_match (selection_rules : List Rule) (task : String)
    (project_context : Context) :
    determine_profile selection_rules task project_context =
      select_profile_spec selection_rules task project_context := by
  induction selection_rules with
  | nil => rfl
  | cons r rest ih =>
      unfold determine_profile select_profile_spec
      rw [eval_rule_eq_ite]
      cases h : rule_matches_spec task project_context r
      · rw [if_neg (by simp [h])]
        rw [List.find?_cons_of_neg _ (by simp [h]), ih]
        rfl
      · rw [if_pos (by simp [h])]
        rw [List.find?_cons_of_pos _ (by simp [h])]
        rfl

/-- C5: the derived URL is `http://10.0.0.2:<port>` exactly when the
service location (defaulted to `local`) is `workhorse`, and
`http://localhost:<port>` otherwise; instantiated on the concrete
spec scenario, profile `p2 = ["b"]` resolves to exactly service `b`
with URL `http://10.0.0.2:2000`. -/
theorem url_derivation_and_p2_scenario :
    (∀ (service_id : String) (info : ServiceInfo),
      (format_service service_id info).url =
        if info.loc.getD "local" = "workhorse"
        then "http://10.0.0.2:" ++ toString info.port
        else "http://localhost:" ++ toString info.port)
    ∧ get_services_for_profile [("p2", Profile.mk ["b"])] regAB "p2" =
        Except.ok [⟨"b", "B", "d2", "http://10.0.0.2:2000", 2000, "other", "workhorse", true, []⟩] := by
  constructor
  · intro service_id info
    unfold format_service
    by_cases h : info.loc.getD "local" = "workhorse" <;> simp [h]
  · rfl

/-- C6: a literal identifier present in the registry contributes its
entry at the declared position; an absent literal identifier is
silently skipped; and there is no duplicate suppression — an identifier
listed twice, or listed and also covered by the wildcard, appears
twice. -/
theorem literal_reference_resolution_and_duplicates :
    (∀ (profiles : List (String × Profile)) (registry : Registry) (name : String)
        (cfg : Profile) (l1 l2 : List String) (id : String) (info : ServiceInfo),
        profiles.lookup name = some cfg → cfg.services = l1 ++ id :: l2 → id ≠ "*" →
        registry.lookup id = some info →
        get_services_for_profile profiles registry name =
          Except.ok (l1.flatMap (expand_ref registry)
            ++ format_service id info :: l2.flatMap (expand_ref registry)))
    ∧ (∀ (profiles : List (String × Profile)) (registry : Registry) (name : String)
        (cfg : Profile) (l1 l2 : List String) (id : String),
        profiles.lookup name = some cfg → cfg.services = l1 ++ id :: l2 → id ≠ "*" →
        registry.lookup id = none →
        get_services_for_profile profiles registry name =
          Except.ok (l1.flatMap (expand_ref registry) ++ l2.flatMap (expand_ref registry)))
    ∧ get_services_for_profile [("p3", Profile.mk ["a", "a"])] regAB "p3" =
        Except.ok [svcA, svcA]
    ∧ get_services_for_profile [("p4", Profile.mk ["a", "*"])] regAB "p4" =
        Except.ok [svcA, svcA] := by
  refine ⟨?_, ?_, rfl, rfl⟩
  · intro profiles registry name cfg l1 l2 id info h1 h2 hstar h3
    unfold get_services_for_profile
    rw [h1]
    simp only [h2, List.flatMap_append, List.flatMap_cons, List.flatMap_nil]
    simp [expand_ref, hstar, h3]
  · intro profiles registry name cfg l1 l2 id h1 h2 hstar h3
    unfold get_services_for_profile
    rw [h1]
    simp only [h2, List.flatMap_append, List.flatMap_cons, List.flatMap_nil]
    simp [expand_ref, hstar, h3]

/-- Witness for the C6 theorem: profile `p2 = ["b"]` contributes the
registry entry `b` at its position. -/
theorem literal_reference_resolution_witness :
    ([("p2", Profile.mk ["b"])].lookup "p2" = some (Profile.mk ["b"])
      ∧ (Profile.mk ["b"]).services = [] ++ "b" :: [] ∧ "b" ≠ "*"
      ∧ regAB.lookup "b" = some infoB)
    ∧ get_services_for_profile [("p2", Profile.mk ["b"])] regAB "p2" =
        Except.ok (([] : List String).flatMap (expand_ref regAB)
          ++ format_service "b" infoB :: ([] : List String).flatMap (expand_ref regAB)) :=
  ⟨⟨rfl, rfl, by decide, rfl⟩,
   literal_reference_resolution_and_duplicates.1 [("p2", Profile.mk ["b"])] regAB "p2"
     (Profile.mk ["b"]) [] [] "b" infoB rfl rfl (by decide) rfl⟩

/-- C7: rendering the empty service list with category grouping yields
exactly the fixed empty-state sentence — no header, no closing line. -/
theorem render_prompt_nil_is_fixed_sentence :
    render_prompt [] true = "\nNo MCP services are available for this task." :=
  rfl

/-- C8: for a non-empty service list rendered with grouping, the output
is the fixed header, then one section per category of the fixed
priority list restricted to the populated categories, in that fixed
order — each section being the category header followed by the
formatted services of that category in input order — then the closing
sentence; services whose category is outside the fixed list appear in
no section. -/
theorem render_prompt_grouped_sections (services : List ResolvedService)
    (h : services ≠ []) :
    render_prompt services true =
      "\nYou have access to the following MCP services:\n\n"
      ++ String.join
          (((category_order.filter
              (fun category => services.any (fun s => s.category == category))).map
            (fun category => category_header category
              ++ String.join ((services.filter
                  (fun s => s.category == category)).map format_service_prompt))))
      ++ closing_sentence := by
  have hne : services.isEmpty = false := by
    cases services with
    | nil => exact absurd rfl h
    | cons a b => rfl
  unfold render_prompt
  rw [hne]
  rw [← join_ite_eq_join_filter category_order
    (fun category => services.any (fun s => s.category == category))
    (fun category => category_header category
      ++ String.join ((services.filter
          (fun s => s.category == category)).map format_service_prompt))]
  have hfun : (fun category =>
      match (group_by_category services).lookup category with
      | some svcs => category_header category ++ String.join (svcs.map format_service_prompt)
      | none => "") =
    (fun category =>
      if services.any (fun s => s.category == category) then
        category_header category
          ++ String.join ((services.filter
              (fun s => s.category == category)).map format_service_prompt)
      else "") := by
    funext category
    rw [lookup_group_by_category]
    cases hx : services.any (fun s => s.category == category) <;> simp [hx]
  simp only [Bool.false_eq_true, if_false, if_true, hfun]

/-- Witness for the C8 theorem at the one-service list `[svcA]`. -/
theorem render_prompt_grouped_sections_witness :
    ([svcA] ≠ ([] : List ResolvedService))
    ∧ render_prompt [svcA] true =
        "\nYou have access to the following MCP services:\n\n"
        ++ String.join
            (((category_order.filter
                (fun category => [svcA].any (fun s => s.category == category))).map
              (fun category => category_header category
                ++ String.join (([svcA].filter
                    (fun s => s.category == category)).map format_service_prompt))))
        ++ closing_sentence :=
  ⟨List.cons_ne_nil _ _, render_prompt_grouped_sections [svcA] (List.cons_ne_nil _ _)⟩

/-- C9, counterexample: for the empty service list the output is the
fixed empty-state sentence and does NOT end with the closing sentence
(the code returns early before appending it). -/
theorem render_prompt_nil_lacks_closing :
    ¬ ∃ p : String, render_prompt [] true = p ++ closing_sentence := by
  rintro ⟨p, hp⟩
  have hlen := congrArg String.length hp
  rw [String.length_append] at hlen
  rw [show (render_prompt [] true).length = 45 from rfl] at hlen
  rw [show closing_sentence.length = 85 from rfl] at hlen
  omega

/-- C9 (amended): for every NON-EMPTY service list, in both rendering
modes, the output ends with the fixed closing sentence instructing the
consumer to use only the listed services; the empty list instead yields
the bare empty-state sentence. -/
theorem render_prompt_ends_with_closing (services : List ResolvedService)
    (include_categories : Bool) (h : services ≠ []) :
    ∃ p : String, render_prompt services include_categories = p ++ closing_sentence := by
  cases services with
  | nil => exact absurd rfl h
  | cons s rest => exact ⟨_, rfl⟩

/-- Witness for the C9 theorem at the one-service list `[svcA]`. -/
theorem render_prompt_ends_with_closing_witness :
    ([svcA] ≠ ([] : List ResolvedService))
    ∧ ∃ p : String, render_prompt [svcA] true = p ++ closing_sentence :=
  ⟨List.cons_ne_nil _ _, render_prompt_ends_with_closing [svcA] true (List.cons_ne_nil _ _)⟩

/-- C10: a rule whose `project_path_contains` value is the empty string
matches every task and context — the empty string is a substring of
every path, including the empty default used when the context has no
`project_path` key — so the selector returns the target of that rule
whenever no earlier rule fires. -/
theorem empty_path_condition_rule_always_fires (task : String) (project_context : Context)
    (pre : List Rule) (r : Rule) (rest : List Rule)
    (hpre : ∀ r2 ∈ pre, eval_rule task project_context r2 = none)
    (hr : r.condition.project_path_contains = some "") :
    determine_profile (pre ++ r :: rest) task project_context = r.profile := by
  induction pre with
  | nil =>
      have hfire : check_path project_context r.condition = true := by
        unfold check_path
        rw [hr]
        exact str_in_empty _
      simp [determine_profile, eval_rule, hfire]
  | cons q qre ih =>
      have hq : eval_rule task project_context q = none := hpre q (by simp)
      rw [List.cons_append]
      unfold determine_profile
      rw [hq]
      exact ih (fun r2 hmem => hpre r2 (by simp [hmem]))

/-- Witness for the C10 theorem: a first rule with only an (unmatched)
default-less empty condition set, then a rule with
`project_path_contains = ""`, against a context with no `project_path`
key: the target of the second rule is returned. -/
theorem empty_path_condition_rule_always_fires_witness :
    ((∀ r2 ∈ [Rule.mk (Condition.mk none none none none) "first"],
        eval_rule "some task" [("k", "v")] r2 = none)
      ∧ (Rule.mk (Condition.mk (some "") none none none) "docs").condition.project_path_contains
          = some "")
    ∧ determine_profile
        ([Rule.mk (Condition.mk none none none none) "first"]
          ++ Rule.mk (Condition.mk (some "") none none none) "docs" :: [])
        "some task" [("k", "v")] = "docs" :=
  ⟨⟨fun r2 hmem => by
      rw [List.mem_singleton] at hmem
      subst hmem
      rfl,
    rfl⟩,
   empty_path_condition_rule_always_fires "some task" [("k", "v")]
     [Rule.mk (Condition.mk none none none none) "first"]
     (Rule.mk (Condition.mk (some "") none none none) "docs") []
     (fun r2 hmem => by
        rw [List.mem_singleton] at hmem
        subst hmem
        rfl)
     rfl⟩

end MCPInfra
